import Mathlib

/-!
Verification of the Keycloak provisioning scripts of durvalcrm-deployment.

The repository contains five near-duplicated provisioning scripts (plus an
unrelated PKCE login-test script).  Each script is a sequential pipeline of
HTTP calls against the Keycloak admin REST API; the control flow of each
script is a pure function of the HTTP responses the server returns.  We
embed each script as a function from an environment record (the responses
the server would give to each of the script's requests) to the list of
requests the script issues, in order, together with the script's result
(its process exit code, or the uncaught-exception outcome).

Embedded sources:
- `MinimalScript`  : src/ansible/files/scripts/create-realm-minimal.py
- `ImportScript`   : src/ansible/files/scripts/import-realm-via-api.py
- `DevCreateRealm` : src/environments/dev/Ansible/files/keycloak/create_realm.py
- `SetupComplete`  : src/environments/{production,dev}/Ansible/files/keycloak/
                     setup-realm-complete.py (the two files have identical
                     control flow; only string constants differ)

Transport semantics used by the embeddings:
- the urllib-based scripts use `urllib.request.urlopen`, which raises
  `HTTPError` exactly when the response status is >= 400;
- the requests-based scripts receive the response object and branch on
  `status_code` (no exception for 4xx/5xx unless `raise_for_status`);
- `create_realm.py` mounts `urllib3.util.retry.Retry(total=3,
  backoff_factor=0.3, status_forcelist=[500, 502, 503, 504])` on its
  session; urllib3 applies status-forcelist retries only to methods in its
  default idempotent allowlist (POST is not in it), retries connection
  errors for any method, and sends at most `1 + total` requests.
-/

/-- An HTTP response as observed by a script: status code, body text, and
the optional `Location` header (the only header the scripts read). -/
structure HttpResp where
  status : Nat
  body : String
  location : Option String
deriving DecidableEq, Repr

/-- A response to a user-lookup request
(`GET /admin/realms/{realm}/users?username=...`): status code plus the ids
of the users in the returned JSON array (the scripts read only
`users[0]['id']` and the truthiness of the array). -/
structure LookupResp where
  status : Nat
  users : List String
deriving DecidableEq, Repr

/-- The requests a script can issue, in the order they appear in its trace.
`passwordReset` records the user id the PUT is addressed to. -/
inductive Request where
  | tokenReq
  | realmDelete
  | realmCreate
  | clientCreate
  | userCreate
  | userLookup
  | passwordReset (userId : String)
  | realmGet
  | realmVerify
deriving DecidableEq, Repr

/-- `urllib.request.urlopen` raises `HTTPError` exactly for status >= 400;
the urllib-based scripts branch on this. -/
def isHTTPError (r : HttpResp) : Bool := decide (400 ≤ r.status)

namespace MinimalScript

/-- Environment of one run of create-realm-minimal.py: the responses the
server gives to the token, realm, client, user-create, user-lookup and
reset-password requests. -/
structure Env where
  tokenResp : HttpResp
  realmResp : HttpResp
  clientResp : HttpResp
  userCreateResp : HttpResp
  userLookup : LookupResp
  pwResp : HttpResp
deriving DecidableEq, Repr

/-- create-realm-minimal.py `create_minimal_realm`: POST the realm; any
non-error response is success, an `HTTPError` with code 409 is "already
exists" and also success, any other error is failure. -/
def create_minimal_realm (r : HttpResp) : Bool :=
  if ¬ isHTTPError r then true
  else if r.status = 409 then true
  else false

/-- create-realm-minimal.py `create_client`: same success policy as
`create_minimal_realm` (result is ignored by `main`). -/
def create_client (r : HttpResp) : Bool :=
  if ¬ isHTTPError r then true
  else if r.status = 409 then true
  else false

/-- The `user_created` flag of create-realm-minimal.py `create_user`: the
POST either succeeded or raised `HTTPError` 409; otherwise the function
returns False immediately. -/
def userCreatedFlag (r : HttpResp) : Bool :=
  if ¬ isHTTPError r then true
  else if r.status = 409 then true
  else false

/-- create-realm-minimal.py `create_user`: POST the user (409 tolerated),
then look the user up by username, take `users[0]['id']`, and PUT
reset-password for that id.  Returns the requests issued and the boolean
the function returns. -/
def create_user (create : HttpResp) (lookup : LookupResp) (pw : HttpResp) :
    List Request × Bool :=
  if ¬ userCreatedFlag create then ([Request.userCreate], false)
  else if 400 ≤ lookup.status then
    ([Request.userCreate, Request.userLookup], false)
  else
    match lookup.users with
    | [] => ([Request.userCreate, Request.userLookup], false)
    | uid :: _ =>
      if isHTTPError pw then
        ([Request.userCreate, Request.userLookup, Request.passwordReset uid], false)
      else
        ([Request.userCreate, Request.userLookup, Request.passwordReset uid], true)

/-- create-realm-minimal.py `main` (after argument parsing): token, then
realm; on realm success, client (result ignored) and user (result
ignored), then `sys.exit(0)`; on realm failure `sys.exit(1)`; a token
error is caught by the outer handler and exits 1. -/
def main (env : Env) : List Request × Nat :=
  if isHTTPError env.tokenResp then ([Request.tokenReq], 1)
  else if create_minimal_realm env.realmResp then
    (Request.tokenReq :: Request.realmCreate :: Request.clientCreate ::
      (create_user env.userCreateResp env.userLookup env.pwResp).1, 0)
  else ([Request.tokenReq, Request.realmCreate], 1)

end MinimalScript

namespace ImportScript

/-- Environment of one run of import-realm-via-api.py (no client step). -/
structure Env where
  tokenResp : HttpResp
  realmResp : HttpResp
  userCreateResp : HttpResp
  userLookup : LookupResp
  pwResp : HttpResp
deriving DecidableEq, Repr

/-- import-realm-via-api.py `import_realm`: POST the realm JSON; success on
any non-error response, 409 treated as "already exists" success. -/
def import_realm (r : HttpResp) : Bool :=
  if ¬ isHTTPError r then true
  else if r.status = 409 then true
  else false

/-- import-realm-via-api.py `create_user` is textually identical to the one
in create-realm-minimal.py. -/
def create_user (create : HttpResp) (lookup : LookupResp) (pw : HttpResp) :
    List Request × Bool :=
  MinimalScript.create_user create lookup pw

/-- import-realm-via-api.py `main`: token, realm import; on success, user
creation with its result ignored, then `sys.exit(0)`. -/
def main (env : Env) : List Request × Nat :=
  if isHTTPError env.tokenResp then ([Request.tokenReq], 1)
  else if import_realm env.realmResp then
    (Request.tokenReq :: Request.realmCreate ::
      (create_user env.userCreateResp env.userLookup env.pwResp).1, 0)
  else ([Request.tokenReq, Request.realmCreate], 1)

end ImportScript

namespace DevCreateRealm

/-- Outcome of one low-level request attempt inside the retrying session:
either a response with a status code, or a connection-level error. -/
inductive AttemptOutcome where
  | resp (status : Nat)
  | connErr
deriving DecidableEq, Repr

/-- create_realm.py `create_session_with_retries` configures
`Retry(total=3, backoff_factor=0.3, status_forcelist=[500, 502, 503, 504])`. -/
def status_forcelist : List Nat := [500, 502, 503, 504]

/-- The `total=3` argument of the `Retry` object in
`create_session_with_retries`: the number of retries allowed after the
initial attempt. -/
def retry_total : Nat := 3

/-- urllib3's default method allowlist for status-based retries (the
script does not override it): only these idempotent methods are retried on
a forcelist status; POST is not among them. -/
def allowedMethods : List String :=
  ["HEAD", "GET", "PUT", "DELETE", "OPTIONS", "TRACE"]

/-- urllib3 `Retry._is_method_retryable` with the default allowlist. -/
def isMethodRetryable (m : String) : Bool := allowedMethods.contains m

/-- Whether one attempt outcome triggers a retry under the session's
`Retry` configuration: a response status is retried only when the method
is in the idempotent allowlist and the status is in the configured
forcelist; a connection-level error is retried for any method. -/
def shouldRetry (m : String) : AttemptOutcome → Bool
  | AttemptOutcome.resp s => isMethodRetryable m && status_forcelist.contains s
  | AttemptOutcome.connErr => true

/-- Number of requests the retrying session sends for one logical call,
given the outcome of each attempt (`f i` is the outcome of attempt `i`)
and the number of retries still allowed.  When retries are exhausted the
final failing attempt raises `MaxRetryError`; either way exactly one more
request was sent. -/
def attemptsUsed (m : String) (f : Nat → AttemptOutcome) (i : Nat) :
    Nat → Nat
  | 0 => 1
  | n + 1 => if shouldRetry m (f i) then 1 + attemptsUsed m f (i + 1) n else 1

/-- Environment of one run of create_realm.py. -/
structure Env where
  tokenResp : HttpResp
  realmCheckResp : HttpResp
  realmCreateResp : HttpResp
  preLookup : LookupResp
  userCreateResp : HttpResp
  pwResp : HttpResp
deriving DecidableEq, Repr

/-- create_realm.py `check_realm_exists`:
`GET /admin/realms/{REALM_NAME}` and compare the status to 200. -/
def check_realm_exists (r : HttpResp) : Bool := decide (r.status = 200)

/-- create_realm.py `create_user`: `user_id = location.split('/')[-1] if
location else None` where `location = response.headers.get('Location', '')`;
an absent or empty header yields no id. -/
def locationUserId (loc : Option String) : Option String :=
  match loc with
  | none => none
  | some l => if l = "" then none else some ((l.splitOn "/").getLastD "")

/-- create_realm.py `create_realm`: skip the POST when the realm is
already reported by `check_realm_exists`; otherwise POST and accept 201 or
409 as success.  Returns the requests issued and the returned boolean. -/
def create_realm (check : HttpResp) (create : HttpResp) :
    List Request × Bool :=
  if check_realm_exists check then ([Request.realmGet], true)
  else if create.status = 201 then ([Request.realmGet, Request.realmCreate], true)
  else if create.status = 409 then ([Request.realmGet, Request.realmCreate], true)
  else ([Request.realmGet, Request.realmCreate], false)

/-- create_realm.py `create_user`: pre-check by username and return True
immediately when a user is found (no password reset); otherwise POST the
user and, only on a 201 whose Location header yields a truthy id, PUT
reset-password (whose own outcome is only printed); a 409 is success
without any reset. -/
def create_user (pre : LookupResp) (create : HttpResp) (pw : HttpResp) :
    List Request × Bool :=
  if pre.status = 200 ∧ pre.users ≠ [] then ([Request.userLookup], true)
  else if create.status = 201 then
    match locationUserId create.location with
    | some uid =>
      if uid = "" then ([Request.userLookup, Request.userCreate], true)
      else ([Request.userLookup, Request.userCreate, Request.passwordReset uid], true)
    | none => ([Request.userLookup, Request.userCreate], true)
  else if create.status = 409 then ([Request.userLookup, Request.userCreate], true)
  else ([Request.userLookup, Request.userCreate], false)

/-- create_realm.py `main`: token (`raise_for_status`, so any status >= 400
exits 1 with nothing further issued), then `create_realm` (failure exits
1), then `create_user` (failure exits 1), then a final public GET of the
realm whose outcome only produces warnings; normal completion exits 0. -/
def main (env : Env) : List Request × Nat :=
  if isHTTPError env.tokenResp then ([Request.tokenReq], 1)
  else
    let r := create_realm env.realmCheckResp env.realmCreateResp
    if r.2 then
      let u := create_user env.preLookup env.userCreateResp env.pwResp
      if u.2 then
        (Request.tokenReq :: r.1 ++ u.1 ++ [Request.realmVerify], 0)
      else (Request.tokenReq :: r.1 ++ u.1, 1)
    else (Request.tokenReq :: r.1, 1)

end DevCreateRealm

namespace SetupComplete

/-- Environment of one run of setup-realm-complete.py (production and dev
copies have identical control flow). -/
structure Env where
  tokenResp : HttpResp
  deleteResp : HttpResp
  realmCreateResp : HttpResp
  clientResp : HttpResp
  userCreateResp : HttpResp
  pwResp : HttpResp
deriving DecidableEq, Repr

/-- setup-realm-complete.py `KeycloakAdmin.get_admin_token`: True exactly
when the token response status is 200. -/
def get_admin_token (r : HttpResp) : Bool := decide (r.status = 200)

/-- setup-realm-complete.py `KeycloakAdmin.delete_realm`: True when the
DELETE returned 204 or 404 (deleted or did not exist). -/
def delete_realm (r : HttpResp) : Bool :=
  decide (r.status = 204 ∨ r.status = 404)

/-- setup-realm-complete.py `KeycloakAdmin.create_realm`: True only on
201; every other status, 409 included, is reported as failure. -/
def create_realm (r : HttpResp) : Bool := decide (r.status = 201)

/-- setup-realm-complete.py `KeycloakAdmin.create_client`: True only on
201; every other status, 409 included, is reported as failure. -/
def create_client (r : HttpResp) : Bool := decide (r.status = 201)

/-- setup-realm-complete.py `KeycloakAdmin.create_user`: on 201 the user
id is `response.headers.get('Location').split('/')[-1]` with no presence
check — a 201 without a Location header raises `AttributeError` (modelled
as `Except.error`); any other status returns None. -/
def create_user (r : HttpResp) : Except String (Option String) :=
  if r.status = 201 then
    match r.location with
    | some loc => Except.ok (some ((loc.splitOn "/").getLastD ""))
    | none => Except.error "AttributeError"
  else Except.ok none

/-- setup-realm-complete.py `KeycloakAdmin.set_user_password`: True
exactly on 204. -/
def set_user_password (r : HttpResp) : Bool := decide (r.status = 204)

/-- setup-realm-complete.py `main` (after the readiness wait, an external
collaborator): token (failure exits 1), unconditional realm DELETE whose
result is ignored, realm create (non-201 exits 1), client create (non-201
exits 1), user create (falsy id exits 1, a missing Location header
propagates the uncaught exception), reset-password (non-204 exits 1),
then exit 0. -/
def main (env : Env) : List Request × Except String Nat :=
  if ¬ get_admin_token env.tokenResp then ([Request.tokenReq], Except.ok 1)
  else if ¬ create_realm env.realmCreateResp then
    ([Request.tokenReq, Request.realmDelete, Request.realmCreate], Except.ok 1)
  else if ¬ create_client env.clientResp then
    ([Request.tokenReq, Request.realmDelete, Request.realmCreate,
      Request.clientCreate], Except.ok 1)
  else
    let t := [Request.tokenReq, Request.realmDelete, Request.realmCreate,
      Request.clientCreate, Request.userCreate]
    match create_user env.userCreateResp with
    | Except.error e => (t, Except.error e)
    | Except.ok none => (t, Except.ok 1)
    | Except.ok (some uid) =>
      if uid = "" then (t, Except.ok 1)
      else if set_user_password env.pwResp then
        (t ++ [Request.passwordReset uid], Except.ok 0)
      else (t ++ [Request.passwordReset uid], Except.ok 1)

end SetupComplete

/-- Whether a request is a credential-set (reset-password) request. -/
def isReset : Request → Bool
  | Request.passwordReset _ => true
  | _ => false

/-- A 200 OK response with empty body. -/
def ok200 : HttpResp := ⟨200, "", none⟩

/-- A 201 Created response without a Location header. -/
def created201 : HttpResp := ⟨201, "", none⟩

/-- A 201 Created response for a user, carrying a Location header. -/
def created201Loc : HttpResp :=
  ⟨201, "", some "/admin/realms/durval-crm/users/u-1"⟩

/-- A 204 No Content response. -/
def noContent204 : HttpResp := ⟨204, "", none⟩

/-- A 400 Bad Request response. -/
def badRequest400 : HttpResp := ⟨400, "", none⟩

/-- A 409 Conflict response. -/
def conflict409 : HttpResp := ⟨409, "", none⟩

/-- A 500 Internal Server Error response. -/
def serverError500 : HttpResp := ⟨500, "", none⟩

/-- A 503 Service Unavailable response. -/
def unavailable503 : HttpResp := ⟨503, "", none⟩

/-- Every run of create-realm-minimal.py's `create_user` starts with the
user-creation POST. -/
lemma create_user_min_starts_userCreate (c : HttpResp) (lk : LookupResp)
    (pw : HttpResp) :
    Request.userCreate ∈ (MinimalScript.create_user c lk pw).1 := by
  unfold MinimalScript.create_user
  repeat' split
  all_goals simp

/-- In create-realm-minimal.py's `create_user`, a reset-password request
is issued only after the lookup succeeded and returned the user whose id
the request names. -/
lemma create_user_min_reset_resolved (c : HttpResp) (lk : LookupResp)
    (pw : HttpResp) (uid : String)
    (h : Request.passwordReset uid ∈ (MinimalScript.create_user c lk pw).1) :
    lk.status < 400 ∧ lk.users.head? = some uid := by
  unfold MinimalScript.create_user at h
  split at h
  · simp at h
  · split at h
    · simp at h
    · rename_i hstat
      split at h
      · simp at h
      · rename_i x u tail husers
        have huid : uid = u := by
          split at h <;> simp_all
        refine ⟨by omega, ?_⟩
        rw [husers, huid]
        rfl

/-- Claim C1: the claim asserts that for every resource kind a 409
response is treated as success and never alone causes a non-zero exit.
Counterexample: in setup-realm-complete.py, `create_realm` accepts only
201, so a 409 on realm creation makes the run exit 1 even though every
other response is a success. -/
theorem C1_counterexample :
    SetupComplete.create_realm conflict409 = false ∧
    SetupComplete.main
      ⟨ok200, noContent204, conflict409, created201, created201Loc, noContent204⟩ =
      ([Request.tokenReq, Request.realmDelete, Request.realmCreate],
        Except.ok 1) :=
  ⟨rfl, rfl⟩

/-- Claim C1 (amended): in create-realm-minimal.py,
import-realm-via-api.py and dev create_realm.py a 409 on realm, client or
user creation is treated as AlreadyExists success; in the two
setup-realm-complete.py scripts only 201 counts as success, so a 409 on
any kind is reported as a failure (and the orchestrator then exits
non-zero). -/
theorem C1_amended (b : String) (l : Option String) :
    MinimalScript.create_minimal_realm ⟨409, b, l⟩ = true ∧
    MinimalScript.create_client ⟨409, b, l⟩ = true ∧
    MinimalScript.userCreatedFlag ⟨409, b, l⟩ = true ∧
    ImportScript.import_realm ⟨409, b, l⟩ = true ∧
    (∀ chk : HttpResp, (DevCreateRealm.create_realm chk ⟨409, b, l⟩).2 = true) ∧
    (∀ (pre : LookupResp) (pw : HttpResp),
      (DevCreateRealm.create_user pre ⟨409, b, l⟩ pw).2 = true) ∧
    SetupComplete.create_realm ⟨409, b, l⟩ = false ∧
    SetupComplete.create_client ⟨409, b, l⟩ = false ∧
    SetupComplete.create_user ⟨409, b, l⟩ = Except.ok none := by
  refine ⟨rfl, rfl, rfl, rfl, ?_, ?_, rfl, rfl, rfl⟩
  · intro chk
    unfold DevCreateRealm.create_realm
    split <;> simp
  · intro pre pw
    unfold DevCreateRealm.create_user
    split <;> simp

/-- Claim C2: the claim asserts a non-zero exit code on any failed user
creation or failed password set.  Counterexample: in
create-realm-minimal.py, `main` ignores the return value of
`create_user`, so a run whose user-creation POST returns 500 (the user
step fails) still exits 0. -/
theorem C2_counterexample :
    (MinimalScript.create_user serverError500 ⟨200, []⟩ noContent204).2 = false ∧
    MinimalScript.main
      ⟨ok200, created201, created201, serverError500, ⟨200, []⟩, noContent204⟩ =
      ([Request.tokenReq, Request.realmCreate, Request.clientCreate,
        Request.userCreate], 0) :=
  ⟨rfl, rfl⟩

/-- Claim C2 (amended): in create-realm-minimal.py and
import-realm-via-api.py the exit code is 0 precisely when token
acquisition and the realm step succeeded; the user-creation and
password-set results are ignored, so a failed user creation or failed
password set still exits 0.  (Only the setup-realm-complete scripts exit
non-zero on user or password failure.) -/
theorem C2_amended (env : MinimalScript.Env) (env2 : ImportScript.Env) :
    ((MinimalScript.main env).2 = 0 ↔
      (isHTTPError env.tokenResp = false ∧
        MinimalScript.create_minimal_realm env.realmResp = true)) ∧
    ((ImportScript.main env2).2 = 0 ↔
      (isHTTPError env2.tokenResp = false ∧
        ImportScript.import_realm env2.realmResp = true)) := by
  constructor
  · by_cases h : isHTTPError env.tokenResp <;>
      by_cases h2 : MinimalScript.create_minimal_realm env.realmResp <;>
      simp [MinimalScript.main, h, h2]
  · by_cases h : isHTTPError env2.tokenResp <;>
      by_cases h2 : ImportScript.import_realm env2.realmResp <;>
      simp [ImportScript.main, h, h2]

/-- Claim C3: the claim asserts the credential reset is issued regardless
of whether user creation returned 201 or 409, and that a pre-existing
user still has its password overwritten.  Counterexample: in dev
create_realm.py, a run whose pre-check lookup fails (500) and whose
user-creation POST returns 409 (the user already exists) returns success
having issued no reset-password request at all; likewise a run whose
pre-check finds the user returns success after the lookup alone. -/
theorem C3_counterexample :
    DevCreateRealm.create_user ⟨500, []⟩ conflict409 noContent204 =
      ([Request.userLookup, Request.userCreate], true) ∧
    DevCreateRealm.create_user ⟨200, ["u-1"]⟩ created201Loc noContent204 =
      ([Request.userLookup], true) :=
  ⟨rfl, rfl⟩

/-- Claim C3 (amended): the reset-password PUT is issued at most once per
run in every script.  In create-realm-minimal.py (and the identical
import-realm-via-api.py `create_user`) the id is recovered by lookup even
after a 409, and the reset is then issued for it exactly as after a 201,
so a pre-existing user's password is overwritten.  In dev create_realm.py
the reset is issued only on the 201-with-Location path: a run that finds
a pre-existing user (by pre-check or 409) succeeds without issuing any
reset, leaving the existing password in place. -/
theorem C3_amended :
    (∀ (b : String) (l : Option String) (uid : String) (rest : List String)
      (pwb : String) (pwl : Option String),
      MinimalScript.create_user ⟨409, b, l⟩ ⟨200, uid :: rest⟩ ⟨204, pwb, pwl⟩ =
        ([Request.userCreate, Request.userLookup, Request.passwordReset uid],
          true) ∧
      MinimalScript.create_user ⟨201, b, l⟩ ⟨200, uid :: rest⟩ ⟨204, pwb, pwl⟩ =
        ([Request.userCreate, Request.userLookup, Request.passwordReset uid],
          true)) ∧
    (∀ (c : HttpResp) (lk : LookupResp) (pw : HttpResp),
      ((MinimalScript.create_user c lk pw).1.countP isReset) ≤ 1) ∧
    (∀ (pre : LookupResp) (b : String) (l : Option String) (pw : HttpResp),
      ((DevCreateRealm.create_user pre ⟨409, b, l⟩ pw).1.countP isReset) = 0) ∧
    (∀ (u : String) (us : List String) (c pw : HttpResp),
      DevCreateRealm.create_user ⟨200, u :: us⟩ c pw =
        ([Request.userLookup], true)) ∧
    (∀ (pre : LookupResp) (c pw : HttpResp),
      ((DevCreateRealm.create_user pre c pw).1.countP isReset) ≤ 1) := by
  refine ⟨fun b l uid rest pwb pwl => ⟨rfl, rfl⟩, ?_, ?_, ?_, ?_⟩
  · intro c lk pw
    unfold MinimalScript.create_user
    split
    · simp [isReset]
    · split
      · simp [isReset]
      · split
        · simp [isReset]
        · split <;> simp [isReset, List.countP_cons]
  · intro pre b l pw
    unfold DevCreateRealm.create_user
    split <;> simp [isReset, List.countP_cons]
  · intro u us c pw
    unfold DevCreateRealm.create_user
    simp
  · intro pre c pw
    unfold DevCreateRealm.create_user
    split
    · simp [isReset]
    · split
      · split
        · split <;> simp [isReset, List.countP_cons]
        · simp [isReset, List.countP_cons]
      · split <;> simp [isReset, List.countP_cons]

/-- Claim C4: the claim asserts a failed client step never aborts the
run.  Counterexample: in setup-realm-complete.py, a 400 on client
creation makes the run exit 1 without ever issuing the user-creation
request. -/
theorem C4_counterexample :
    SetupComplete.main
      ⟨ok200, noContent204, created201, badRequest400, created201Loc,
        noContent204⟩ =
      ([Request.tokenReq, Request.realmDelete, Request.realmCreate,
        Request.clientCreate], Except.ok 1) :=
  rfl

/-- Claim C4 (amended): in create-realm-minimal.py a failed client
creation does not abort the run — whenever the realm step succeeded the
user-creation request is issued regardless of the client response; in the
setup-realm-complete.py scripts a non-201 client creation aborts the run
before any user-creation request. -/
theorem C4_amended (env : MinimalScript.Env)
    (h : isHTTPError env.tokenResp = false)
    (h2 : MinimalScript.create_minimal_realm env.realmResp = true)
    (env2 : SetupComplete.Env)
    (h3 : SetupComplete.create_client env2.clientResp = false) :
    Request.userCreate ∈ (MinimalScript.main env).1 ∧
    Request.userCreate ∉ (SetupComplete.main env2).1 := by
  constructor
  · simp only [MinimalScript.main, h, h2, if_true, Bool.false_eq_true,
      if_false]
    simp [create_user_min_starts_userCreate]
  · unfold SetupComplete.main
    by_cases t : SetupComplete.get_admin_token env2.tokenResp <;>
      by_cases r : SetupComplete.create_realm env2.realmCreateResp <;>
      simp [t, r, h3]

/-- Witness for C4 (amended) at a concrete run: realm succeeded, client
creation returned 400. -/
theorem C4_amended_witness :
    isHTTPError ok200 = false ∧
    MinimalScript.create_minimal_realm created201 = true ∧
    SetupComplete.create_client badRequest400 = false ∧
    (Request.userCreate ∈
      (MinimalScript.main
        ⟨ok200, created201, badRequest400, created201, ⟨200, ["u-1"]⟩,
          noContent204⟩).1 ∧
      Request.userCreate ∉
      (SetupComplete.main
        ⟨ok200, noContent204, created201, badRequest400, created201Loc,
          noContent204⟩).1) :=
  ⟨by decide, by decide, by decide,
    C4_amended _ (by decide) (by decide) _ (by decide)⟩

/-- create-realm-minimal.py's `create_user` never issues a token
request. -/
lemma create_user_min_no_token (c : HttpResp) (lk : LookupResp)
    (pw : HttpResp) :
    (MinimalScript.create_user c lk pw).1.count Request.tokenReq = 0 := by
  unfold MinimalScript.create_user
  repeat' split
  all_goals rfl

/-- create_realm.py's `create_realm` never issues a token request. -/
lemma create_realm_dev_no_token (chk cr : HttpResp) :
    (DevCreateRealm.create_realm chk cr).1.count Request.tokenReq = 0 := by
  unfold DevCreateRealm.create_realm
  repeat' split
  all_goals rfl

/-- create_realm.py's `create_user` never issues a token request. -/
lemma create_user_dev_no_token (pre : LookupResp) (c pw : HttpResp) :
    (DevCreateRealm.create_user pre c pw).1.count Request.tokenReq = 0 := by
  unfold DevCreateRealm.create_user
  repeat' split
  all_goals rfl

/-- Claim C5: token acquisition performs exactly one password-grant HTTP
exchange per run; any non-success response is fatal with no retry, and
nothing downstream is attempted after an authentication failure.  In
every script an authentication failure leaves the trace at the single
token request with exit 1; in create_realm.py the token POST is never
status-retried because POST is not in urllib3's idempotent allowlist, so
whatever statuses the endpoint would return, exactly one request is
sent; and in every run of every script the trace contains exactly one
token request. -/
theorem C5_theorem :
    (∀ env : MinimalScript.Env, isHTTPError env.tokenResp = true →
      MinimalScript.main env = ([Request.tokenReq], 1)) ∧
    (∀ env : ImportScript.Env, isHTTPError env.tokenResp = true →
      ImportScript.main env = ([Request.tokenReq], 1)) ∧
    (∀ env : DevCreateRealm.Env, isHTTPError env.tokenResp = true →
      DevCreateRealm.main env = ([Request.tokenReq], 1)) ∧
    (∀ env : SetupComplete.Env, env.tokenResp.status ≠ 200 →
      SetupComplete.main env = ([Request.tokenReq], Except.ok 1)) ∧
    (∀ f : Nat → Nat,
      DevCreateRealm.attemptsUsed "POST"
        (fun i => DevCreateRealm.AttemptOutcome.resp (f i)) 0
        DevCreateRealm.retry_total = 1) ∧
    (∀ env : MinimalScript.Env,
      (MinimalScript.main env).1.count Request.tokenReq = 1) ∧
    (∀ env : ImportScript.Env,
      (ImportScript.main env).1.count Request.tokenReq = 1) ∧
    (∀ env : DevCreateRealm.Env,
      (DevCreateRealm.main env).1.count Request.tokenReq = 1) ∧
    (∀ env : SetupComplete.Env,
      (SetupComplete.main env).1.count Request.tokenReq = 1) := by
  refine ⟨?_, ?_, ?_, ?_, fun f => rfl, ?_, ?_, ?_, ?_⟩
  · intro env h; simp [MinimalScript.main, h]
  · intro env h; simp [ImportScript.main, h]
  · intro env h; simp [DevCreateRealm.main, h]
  · intro env h; simp [SetupComplete.main, SetupComplete.get_admin_token, h]
  · intro env
    unfold MinimalScript.main
    repeat' split
    all_goals simp [List.count_cons, create_user_min_no_token]
  · intro env
    unfold ImportScript.main
    repeat' split
    all_goals
      simp [List.count_cons, ImportScript.create_user,
        create_user_min_no_token]
  · intro env
    unfold DevCreateRealm.main
    by_cases h : isHTTPError env.tokenResp <;>
      by_cases h2 :
        (DevCreateRealm.create_realm env.realmCheckResp env.realmCreateResp).2 <;>
      by_cases h3 :
        (DevCreateRealm.create_user env.preLookup env.userCreateResp
          env.pwResp).2 <;>
      simp [h, h2, h3, List.count_cons, List.count_append,
        create_realm_dev_no_token, create_user_dev_no_token]
  · intro env
    unfold SetupComplete.main
    repeat' split
    all_goals simp [List.count_cons, List.count_append]

/-- Witness for C5 at a concrete run: the token endpoint answers 500. -/
theorem C5_witness :
    isHTTPError serverError500 = true ∧
    serverError500.status ≠ 200 ∧
    MinimalScript.main
      ⟨serverError500, created201, created201, created201, ⟨200, []⟩,
        noContent204⟩ = ([Request.tokenReq], 1) ∧
    ImportScript.main
      ⟨serverError500, created201, created201, ⟨200, []⟩, noContent204⟩ =
      ([Request.tokenReq], 1) ∧
    DevCreateRealm.main
      ⟨serverError500, ok200, created201, ⟨200, []⟩, created201Loc,
        noContent204⟩ = ([Request.tokenReq], 1) ∧
    SetupComplete.main
      ⟨serverError500, noContent204, created201, created201, created201Loc,
        noContent204⟩ = ([Request.tokenReq], Except.ok 1) ∧
    DevCreateRealm.attemptsUsed "POST"
      (fun _ => DevCreateRealm.AttemptOutcome.resp 503) 0
      DevCreateRealm.retry_total = 1 :=
  ⟨by decide, by decide,
    C5_theorem.1 _ (by decide),
    C5_theorem.2.1 _ (by decide),
    C5_theorem.2.2.1 _ (by decide),
    C5_theorem.2.2.2.1 _ (by decide),
    C5_theorem.2.2.2.2.1 _⟩

/-- Claim C6: the claim asserts that a retry happens only for statuses in
the transient set given as 502, 503, 504 (besides connection errors).
Counterexample: create_realm.py configures
`status_forcelist=[500, 502, 503, 504]`, so a 500 on an idempotent
request is retried (here: until the configured retries are exhausted),
although 500 is outside the claimed set. -/
theorem C6_counterexample :
    DevCreateRealm.shouldRetry "GET" (DevCreateRealm.AttemptOutcome.resp 500) =
      true ∧
    ¬ (500 ∈ ([502, 503, 504] : List Nat)) ∧
    DevCreateRealm.attemptsUsed "GET"
      (fun _ => DevCreateRealm.AttemptOutcome.resp 500) 0
      DevCreateRealm.retry_total = 4 :=
  ⟨rfl, by decide, rfl⟩

/-- Claim C6 (amended): an attempt is retried only when its status lies
in the configured forcelist 500, 502, 503, 504 and the method is in
urllib3's idempotent allowlist, or a connection-level error occurred; in
particular 409 and every other 4xx status never trigger a retry, and a
POST is never status-retried. -/
theorem C6_amended :
    (∀ (m : String) (s : Nat), 400 ≤ s → s < 500 →
      DevCreateRealm.shouldRetry m (DevCreateRealm.AttemptOutcome.resp s) =
        false) ∧
    (∀ (m : String) (s : Nat),
      DevCreateRealm.shouldRetry m (DevCreateRealm.AttemptOutcome.resp s) =
        true → s ∈ DevCreateRealm.status_forcelist) ∧
    DevCreateRealm.shouldRetry "GET" (DevCreateRealm.AttemptOutcome.resp 500) =
      true ∧
    (∀ m : String,
      DevCreateRealm.shouldRetry m DevCreateRealm.AttemptOutcome.connErr =
        true) ∧
    (∀ s : Nat,
      DevCreateRealm.shouldRetry "POST" (DevCreateRealm.AttemptOutcome.resp s) =
        false) := by
  refine ⟨?_, ?_, rfl, fun m => rfl, fun s => rfl⟩
  · intro m s h h2
    rw [Bool.eq_false_iff]
    intro hc
    simp [DevCreateRealm.shouldRetry, DevCreateRealm.status_forcelist,
      List.contains_eq_any_beq] at hc
    obtain ⟨-, hc⟩ := hc
    rcases hc with h3 | h3 | h3 | h3 <;> omega
  · intro m s h
    simp only [DevCreateRealm.shouldRetry, Bool.and_eq_true] at h
    have := h.2
    simpa [DevCreateRealm.status_forcelist] using this

/-- Witness for C6 (amended) at concrete inputs: a 409 on a GET is not
retried. -/
theorem C6_amended_witness :
    (400 ≤ 409 ∧ 409 < 500) ∧
    DevCreateRealm.shouldRetry "GET" (DevCreateRealm.AttemptOutcome.resp 409) =
      false ∧
    503 ∈ DevCreateRealm.status_forcelist :=
  ⟨by decide, C6_amended.1 "GET" 409 (by decide) (by decide),
    C6_amended.2.1 "GET" 503 (by decide)⟩

/-- Claim C7: the claim asserts that an endpoint answering 503 on every
attempt is tried exactly the configured maximum number of times (default
3).  Counterexample: create-realm-minimal.py has no retry logic at all —
a 503 on realm creation is a single attempt whose failure is surfaced
immediately (exit 1) — and in create_realm.py the configured
`Retry(total=3)` sends 1 + 3 = 4 requests for an always-503 idempotent
call, not 3. -/
theorem C7_counterexample :
    MinimalScript.main
      ⟨ok200, unavailable503, created201, created201, ⟨200, []⟩,
        noContent204⟩ = ([Request.tokenReq, Request.realmCreate], 1) ∧
    [Request.tokenReq, Request.realmCreate].count Request.realmCreate = 1 ∧
    DevCreateRealm.attemptsUsed "GET"
      (fun _ => DevCreateRealm.AttemptOutcome.resp 503) 0
      DevCreateRealm.retry_total = 4 :=
  ⟨rfl, by decide, rfl⟩

/-- Claim C7 (amended): retrying is bounded everywhere.  In
create_realm.py the session sends at most `1 + total` requests per call,
and an always-503 idempotent call is sent exactly `1 + total` (= 4)
times before the failure is surfaced; in the urllib-based scripts there
is no retry, so an always-503 realm creation is attempted exactly once
and its failure surfaced immediately as a failed outcome; no script
retries indefinitely. -/
theorem C7_amended :
    (∀ (m : String) (f : Nat → DevCreateRealm.AttemptOutcome) (i n : Nat),
      DevCreateRealm.attemptsUsed m f i n ≤ n + 1) ∧
    DevCreateRealm.attemptsUsed "GET"
      (fun _ => DevCreateRealm.AttemptOutcome.resp 503) 0
      DevCreateRealm.retry_total = DevCreateRealm.retry_total + 1 ∧
    (∀ (b : String) (l : Option String),
      MinimalScript.create_minimal_realm ⟨503, b, l⟩ = false) ∧
    (∀ (b : String) (l : Option String) (c u : HttpResp) (lk : LookupResp)
      (pw : HttpResp),
      MinimalScript.main ⟨ok200, ⟨503, b, l⟩, c, u, lk, pw⟩ =
        ([Request.tokenReq, Request.realmCreate], 1)) := by
  refine ⟨?_, rfl, fun b l => rfl, fun b l c u lk pw => rfl⟩
  intro m f i n
  induction n generalizing i with
  | zero => simp [DevCreateRealm.attemptsUsed]
  | succ k ih =>
    unfold DevCreateRealm.attemptsUsed
    split
    · have := ih (i + 1)
      omega
    · omega

/-- Claim C8: in create-realm-minimal.py, no client-creation or
user-creation request is issued in a run unless the realm reconciliation
returned success (a non-error response, i.e. Created, or a 409, i.e.
AlreadyExists), and a reset-password request is issued only after the
user lookup succeeded and resolved the id the request names. -/
theorem C8_theorem (env : MinimalScript.Env) :
    ((Request.clientCreate ∈ (MinimalScript.main env).1 ∨
      Request.userCreate ∈ (MinimalScript.main env).1) →
      MinimalScript.create_minimal_realm env.realmResp = true) ∧
    (MinimalScript.create_minimal_realm env.realmResp = true ↔
      (isHTTPError env.realmResp = false ∨ env.realmResp.status = 409)) ∧
    (∀ uid : String,
      Request.passwordReset uid ∈ (MinimalScript.main env).1 →
      env.userLookup.status < 400 ∧
        env.userLookup.users.head? = some uid) := by
  refine ⟨?_, ?_, ?_⟩
  · by_cases h : isHTTPError env.tokenResp <;>
      by_cases h2 : MinimalScript.create_minimal_realm env.realmResp <;>
      simp [MinimalScript.main, h, h2]
  · unfold MinimalScript.create_minimal_realm
    by_cases h : isHTTPError env.realmResp <;>
      by_cases h2 : env.realmResp.status = 409 <;> simp [h, h2]
  · intro uid hmem
    by_cases h : isHTTPError env.tokenResp <;>
      by_cases h2 : MinimalScript.create_minimal_realm env.realmResp <;>
      simp [MinimalScript.main, h, h2] at hmem
    exact create_user_min_reset_resolved _ _ _ _ hmem

/-- Witness for C8 at a concrete successful run: client and user requests
were issued and the realm step had succeeded; the reset-password request
named the id the lookup resolved. -/
theorem C8_witness :
    Request.clientCreate ∈
      (MinimalScript.main
        ⟨ok200, created201, created201, created201, ⟨200, ["u-1"]⟩,
          noContent204⟩).1 ∧
    MinimalScript.create_minimal_realm created201 = true ∧
    Request.passwordReset "u-1" ∈
      (MinimalScript.main
        ⟨ok200, created201, created201, created201, ⟨200, ["u-1"]⟩,
          noContent204⟩).1 ∧
    (200 : Nat) < 400 ∧
    (["u-1"] : List String).head? = some "u-1" :=
  ⟨by decide,
    (C8_theorem ⟨ok200, created201, created201, created201, ⟨200, ["u-1"]⟩,
      noContent204⟩).1 (Or.inl (by decide)),
    by decide,
    ((C8_theorem ⟨ok200, created201, created201, created201, ⟨200, ["u-1"]⟩,
      noContent204⟩).2.2 "u-1" (by decide)).1,
    ((C8_theorem ⟨ok200, created201, created201, created201, ⟨200, ["u-1"]⟩,
      noContent204⟩).2.2 "u-1" (by decide)).2⟩

/-- Claim C9: every run of the setup-realm-complete scripts that gets past
token acquisition issues the realm DELETE unconditionally and before the
realm create; the DELETE's own response has no influence on the rest of
the run (so a pre-existing realm is destroyed and rebuilt, never
confirmed); and whenever a realm-create request is issued, a realm DELETE
was issued in the same run. -/
theorem C9_theorem (env : SetupComplete.Env) :
    (SetupComplete.get_admin_token env.tokenResp = true →
      (SetupComplete.main env).1.take 3 =
        [Request.tokenReq, Request.realmDelete, Request.realmCreate]) ∧
    (∀ d d2 : HttpResp,
      SetupComplete.main { env with deleteResp := d } =
        SetupComplete.main { env with deleteResp := d2 }) ∧
    (Request.realmCreate ∈ (SetupComplete.main env).1 →
      Request.realmDelete ∈ (SetupComplete.main env).1) := by
  refine ⟨?_, fun d d2 => rfl, ?_⟩
  · intro h
    unfold SetupComplete.main
    repeat' split
    all_goals simp_all
  · unfold SetupComplete.main
    repeat' split
    all_goals simp_all

/-- Witness for C9 at a concrete run whose token acquisition succeeded. -/
theorem C9_witness :
    SetupComplete.get_admin_token ok200 = true ∧
    (SetupComplete.main
      ⟨ok200, noContent204, created201, created201, created201,
        noContent204⟩).1.take 3 =
      [Request.tokenReq, Request.realmDelete, Request.realmCreate] ∧
    Request.realmDelete ∈
      (SetupComplete.main
        ⟨ok200, noContent204, created201, created201, created201,
          noContent204⟩).1 :=
  ⟨by decide,
    (C9_theorem ⟨ok200, noContent204, created201, created201, created201,
      noContent204⟩).1 (by decide),
    (C9_theorem ⟨ok200, noContent204, created201, created201, created201,
      noContent204⟩).2.2 (by decide)⟩

/-- Claim C10: in the setup-realm-complete scripts `create_user` on a 201
derives the user id by splitting the Location header with no presence
check: when every 201 carries a Location header the error branch is
unreachable (the call returns the id split from the header), but a 201
without a Location header raises an unhandled `AttributeError` instead of
returning an outcome, which propagates out of `main` uncaught. -/
theorem C10_theorem :
    (∀ (b : String) (loc : String),
      SetupComplete.create_user ⟨201, b, some loc⟩ =
        Except.ok (some ((loc.splitOn "/").getLastD ""))) ∧
    (∀ b : String,
      SetupComplete.create_user ⟨201, b, none⟩ =
        Except.error "AttributeError") ∧
    (∀ (b : String) (l : Option String),
      SetupComplete.create_user ⟨409, b, l⟩ = Except.ok none) ∧
    (∀ b : String,
      SetupComplete.main
        ⟨ok200, noContent204, created201, created201, ⟨201, b, none⟩,
          noContent204⟩ =
        ([Request.tokenReq, Request.realmDelete, Request.realmCreate,
          Request.clientCreate, Request.userCreate],
          Except.error "AttributeError")) :=
  ⟨fun b loc => rfl, fun b => rfl, fun b l => rfl, fun b => rfl⟩
